import Mathlib

/-!
Verification development for the daily_productivity assistant repository.

The deterministic core algorithms of `src/agents/calendar_agent.py` and
`src/agents/email_agent.py` are shallowly embedded below:

* Python string values are modelled as `String` (with `.data : List Char`
  when character-level slicing of the source is mirrored);
* Python `int` values as `Int`, Python `datetime` timestamps as integer
  minutes since a fixed epoch whose day zero is a Monday (so Python's
  `date.weekday()` becomes `dayNumber % 7`);
* Python dictionaries as insertion-ordered association lists
  (`List (String × PyVal)`), with `dictGet`/`dictSet` mirroring
  `d.get(k)` / `d[k] = v`;
* fallible Python code returns `Option`; an exception caught by a
  surrounding handler is modelled by the `none` / failure branch of the
  function whose body contains the `try`.
-/

/-- Values that can appear in the Python dictionaries handled by the agents:
`None`, booleans, integers (also standing for datetime values, as minutes),
strings, lists and dictionaries. -/
inductive PyVal where
  | vNone : PyVal
  | vBool : Bool → PyVal
  | vInt : Int → PyVal
  | vStr : String → PyVal
  | vList : List PyVal → PyVal
  | vDict : List (String × PyVal) → PyVal

/-- First-match lookup in an association list, modelling Python `d.get(k)`
(keys in the modelled dictionaries are unique, as in Python). -/
def dictGet : List (String × PyVal) → String → Option PyVal
  | [], _ => none
  | (k', v) :: rest, k => if k' = k then some v else dictGet rest k

/-- Modelling Python `d[k] = v`: replace in place if the key exists
(insertion order is preserved), otherwise append. -/
def dictSet : List (String × PyVal) → String → PyVal → List (String × PyVal)
  | [], k, v => [(k, v)]
  | (k', v') :: rest, k, v =>
    if k' = k then (k, v) :: rest else (k', v') :: dictSet rest k v

/-! ## Python numeric string parsing

`int(s)` and `int(float(s))` as used by the duration-modification code.
Python's `int(str)` ignores surrounding whitespace and accepts an optional
sign followed by a nonempty digit run (digit-group underscores are not
modelled); `float(str)` additionally accepts a decimal point, and `int`
then truncates toward zero (exponent forms are not modelled). -/

/-- Decimal digit value of a character, `none` for non-digits. -/
def charDigit (c : Char) : Option Nat :=
  if '0' ≤ c ∧ c ≤ '9' then some (c.toNat - '0'.toNat) else none

/-- Value of a nonempty all-digit run, `none` otherwise. -/
def digitsToNatAux : List Char → Nat → Option Nat
  | [], acc => some acc
  | c :: cs, acc =>
    match charDigit c with
    | some d => digitsToNatAux cs (acc * 10 + d)
    | none => none

def digitsToNat : List Char → Option Nat
  | [] => none
  | cs => digitsToNatAux cs 0

/-- Strip leading and trailing whitespace, as `int(str)` / `float(str)` do. -/
def trimChars (cs : List Char) : List Char :=
  ((cs.dropWhile Char.isWhitespace).reverse.dropWhile Char.isWhitespace).reverse

/-- Python `int(s)` on a string: optional sign then a nonempty digit run. -/
def pyIntOfChars (cs : List Char) : Option Int :=
  match trimChars cs with
  | '+' :: rest => (digitsToNat rest).map (fun n => (n : Int))
  | '-' :: rest => (digitsToNat rest).map (fun n => -(n : Int))
  | rest => (digitsToNat rest).map (fun n => (n : Int))

/-- Unsigned body of a float literal: digits, optionally with one decimal
point, at least one digit in total.  Returns the truncated integer part. -/
def floatBodyTrunc (cs : List Char) : Option Nat :=
  let ip := cs.takeWhile (fun c => c ≠ '.')
  let rest := cs.dropWhile (fun c => c ≠ '.')
  match rest with
  | [] => digitsToNat ip
  | _ :: fp =>
    if (ip.all fun c => (charDigit c).isSome) ∧ (fp.all fun c => (charDigit c).isSome)
        ∧ (ip ≠ [] ∨ fp ≠ []) then
      some ((digitsToNatAux ip 0).getD 0)
    else none

/-- Python `int(float(s))` on a string: parse as a float literal, truncate
toward zero. -/
def pyFloatTruncChars (cs : List Char) : Option Int :=
  match trimChars cs with
  | '+' :: rest => (floatBodyTrunc rest).map (fun n => (n : Int))
  | '-' :: rest => (floatBodyTrunc rest).map (fun n => -(n : Int))
  | rest => (floatBodyTrunc rest).map (fun n => (n : Int))

/-- Python `int(x)` on an arbitrary value: identity on ints, `True`/`False`
become 1/0, strings are parsed, anything else raises (`none`). -/
def pyInt : PyVal → Option Int
  | .vInt n => some n
  | .vBool b => some (if b then 1 else 0)
  | .vStr s => pyIntOfChars s.data
  | _ => none

/-- Python `int(float(x))`: identity on ints (float round-trips of
realistically-sized ints are exact and modelled as the identity),
`True`/`False` become 1/0, strings parsed as float literals then
truncated, anything else raises (`none`). -/
def pyFloatInt : PyVal → Option Int
  | .vInt n => some n
  | .vBool b => some (if b then 1 else 0)
  | .vStr s => pyFloatTruncChars s.data
  | _ => none

/-- `s.startswith("+=")` at the character-list level. -/
def hasPlusEq (cs : List Char) : Bool :=
  match cs with
  | a :: b :: _ => a = '+' && b = '='
  | _ => false

/-! ## Duration modification (calendar_agent.py, `_handle_modification`
lines 612-633 and `_modify_draft_event` lines 486-499) -/

/-- New `duration_minutes` computed by `_handle_modification`
(calendar_agent.py 613-633) from the draft's stored `duration_minutes`
entry (`modified_draft.get("duration_minutes", 30)`) and the textual or
numeric value supplied for `duration_minutes`.  A string value starting
with `+=` is relative: the remainder is parsed with `int` and added to the
current duration (an unparseable remainder logs
"Invalid relative duration format" and returns `None`, modelled as
`none`); any other value goes through `int(float(value))`, whose failure
also yields `None`.  A non-integer stored duration makes the `+` raise,
which the outer handler turns into `None`. -/
def handleDuration (draftDur : Option PyVal) (v : PyVal) : Option Int :=
  match v with
  | .vStr s =>
    if hasPlusEq s.data then
      match pyIntOfChars (s.data.drop 2) with
      | none => none
      | some k =>
        match draftDur.getD (.vInt 30) with
        | .vInt cur => some (cur + k)
        | _ => none
    else pyFloatInt (.vStr s)
  | w => pyFloatInt w

/-- Outcome of the duration branch of `_modify_draft_event`
(calendar_agent.py 486-494): either the value written into
`duration_minutes`, or the `return None` taken when the remainder of a
`+=` value fails to parse as an integer. -/
inductive DurOutcome where
  | ok : PyVal → DurOutcome
  | fail : DurOutcome

/-- The duration branch of `_modify_draft_event` (calendar_agent.py
486-494).  `cur` is the draft's current `duration_minutes`, given as the
concrete integer the claims assume is stored there.  Unlike
`_handle_modification`, no `int(float(·))` coercion is applied to an
absolute value: it is written as-is. -/
def modifyDraftEventDuration (cur : Int) (v : PyVal) : DurOutcome :=
  match v with
  | .vStr s =>
    if hasPlusEq s.data then
      match pyIntOfChars (s.data.drop 2) with
      | none => .fail
      | some k => .ok (.vInt (cur + k))
    else .ok v
  | w => .ok w

/-- One entry of `self._modification_history`
(calendar_agent.py 645-651): the request text and the explicit and
implicit modification dictionaries that were applied. -/
structure ModRecord where
  request : String
  explicitMods : List (String × PyVal)
  implicitMods : List (String × PyVal)

/-- The loop of `_handle_modification` lines 636-638: copy the keys
`summary`, `description`, `attendees` from the explicit modifications into
the draft when present. -/
def applyExplicitKeys (draft : List (String × PyVal)) (em : List (String × PyVal)) :
    List (String × PyVal) :=
  ["summary", "description", "attendees"].foldl
    (fun acc key =>
      match dictGet em key with
      | some v => dictSet acc key v
      | none => acc) draft

/-- The duration-handling block of `_handle_modification` (lines 612-633):
if the explicit modifications carry `duration_minutes`, compute the new
duration, write it into the draft and recompute `end_time` from the
stored `start_time`.  Timestamps are modelled as integer minutes stored
under `start_time`, and `datetime.fromisoformat` as the projection that
fails on anything else (the raised `ValueError`/`KeyError` is caught and
turns into the `None` return, modelled as `none`). -/
def durationStep (currentDraft : List (String × PyVal))
    (explicitMods : List (String × PyVal)) : Option (List (String × PyVal)) :=
  match dictGet explicitMods "duration_minutes" with
  | none => some currentDraft
  | some v =>
    match handleDuration (dictGet currentDraft "duration_minutes") v with
    | none => none
    | some nd =>
      match dictGet currentDraft "start_time" with
      | some (.vInt st) =>
        some (dictSet (dictSet currentDraft "duration_minutes" (.vInt nd))
          "end_time" (.vInt (st + nd)))
      | _ => none

/-- The modification-application core of `_handle_modification`
(calendar_agent.py 607-653), after the LLM response has been parsed into
explicit and implicit modification dictionaries: the duration step, then
the copy of `summary`/`description`/`attendees`, then the implicit
modifications.  Returns the modified draft (or `none` on failure)
together with the updated modification history; the history is appended
to only on success, as in the source (the `return None` paths run before
the append). -/
def handleModification (currentDraft : List (String × PyVal)) (history : List ModRecord)
    (request : String) (explicitMods implicitMods : List (String × PyVal)) :
    Option (List (String × PyVal)) × List ModRecord :=
  match durationStep currentDraft explicitMods with
  | none => (none, history)
  | some d1 =>
    let d2 := applyExplicitKeys d1 explicitMods
    let d3 := implicitMods.foldl (fun acc kv => dictSet acc kv.1 kv.2) d2
    (some d3, history ++ [⟨request, explicitMods, implicitMods⟩])

/-- Two successive relative duration modifications (`+=30` then `+=15`)
routed through `_handle_modification`, the second applied to the draft and
history produced by the first, in arrival order.  Returns the final
draft's `duration_minutes` entry, or `none` if either application failed. -/
def applyTwoRelativeMods (draft : List (String × PyVal)) (hist : List ModRecord)
    (r1 r2 : String) : Option PyVal :=
  match handleModification draft hist r1 [("duration_minutes", .vStr "+=30")] [] with
  | (none, _) => none
  | (some d1, h1) =>
    match (handleModification d1 h1 r2 [("duration_minutes", .vStr "+=15")] []).1 with
    | none => none
    | some d2 => dictGet d2 "duration_minutes"

/-! ## Weekday resolution (calendar_agent.py, `_parse_time` lines 263-288)

Dates are modelled as day numbers counted from a fixed epoch that falls on
a Monday, so Python's `date.weekday()` (Monday = 0 .. Sunday = 6) is
`dayNumber % 7`.  The target weekday below is the `day_map` value of the
first weekday name found in the request text. -/

/-- The `days_ahead` computation of `_parse_time` lines 277-281:
`days_ahead = target_day - current_day; if days_ahead <= 0: days_ahead += 7`. -/
def daysAhead (targetDay currentDay : Nat) : Int :=
  let d : Int := (targetDay : Int) - (currentDay : Int)
  if d ≤ 0 then d + 7 else d

/-- The date adjustment of `_parse_time` lines 283-288: the start date is
`(current_time + timedelta(days=days_ahead)).date()` (the parsed
time-of-day is kept and does not move the date). -/
def resolveWeekdayDate (refDay : Nat) (targetDay : Nat) : Nat :=
  refDay + (daysAhead targetDay (refDay % 7)).toNat

/-! ## Email batch chunker (email_agent.py, `_chunk_emails` lines 124-147)

The items are kept abstract; `sz` models Python's `len(str(email))`. -/

/-- `MAX_CONTENT_LENGTH` (email_agent.py line 23), the default `max_chars`. -/
def MAX_CONTENT_LENGTH : Nat := 120000

/-- The accumulation loop of `_chunk_emails`: `cur` is `current_chunk`
(in order) and `curLen` is `current_length`.  When adding the next item
would exceed `maxChars` and the current chunk is nonempty, the chunk is
closed and the item starts a new one; the final nonempty chunk is
appended after the loop. -/
def chunkLoop {α : Type} (sz : α → Nat) (maxChars : Nat) :
    List α → List α → Nat → List (List α)
  | [], cur, _ => if cur.isEmpty then [] else [cur]
  | e :: rest, cur, curLen =>
    if curLen + sz e > maxChars && !cur.isEmpty then
      cur :: chunkLoop sz maxChars rest [e] (sz e)
    else
      chunkLoop sz maxChars rest (cur ++ [e]) (curLen + sz e)

/-- `_chunk_emails(emails, max_chars)`. -/
def chunkEmails {α : Type} (sz : α → Nat) (emails : List α) (maxChars : Nat) :
    List (List α) :=
  chunkLoop sz maxChars emails [] 0

/-- Total size of a chunk. -/
def sizeSum {α : Type} (sz : α → Nat) (b : List α) : Nat :=
  (b.map sz).sum

/-! ## Merge-reduce of batch analyses (email_agent.py, `_merge_analyses`
lines 258-270) -/

/-- Result of `_merge_analyses`: either a batch summary returned directly
without any call to the text-generation capability (the
`len(analyses) == 1` short-circuit), or the dispatch of a merge request to
the capability carrying all batch analyses and the total email count. -/
inductive MergeOutcome (α : Type) where
  | direct : α → MergeOutcome α
  | llmMerge : List α → Nat → MergeOutcome α

/-- `_merge_analyses(analyses, total_emails)`: `if len(analyses) == 1:
return analyses[0]`, otherwise invoke the merge prompt on the whole list.
Batch summaries are opaque (`α`), as the source treats them. -/
def mergeAnalyses {α : Type} (analyses : List α) (totalEmails : Nat) : MergeOutcome α :=
  match analyses with
  | [a] => .direct a
  | _ => .llmMerge analyses totalEmails

/-! ## Fallback schedule analysis (calendar_agent.py,
`_generate_fallback_analysis` lines 309-395)

A calendar event as the analyzer reads it: the local hour of its resolved
start timestamp, plus the fields inspected by the heuristics.  `summary`,
`description` and `location` are `Option String` because the source uses
`event.get(...)`, whose `None` result (missing key) and the empty string
are both falsy; `attendees` defaults to the empty list. -/
structure GEvent where
  hour : Nat
  summary : Option String
  description : Option String
  location : Option String
  attendees : List String
  deriving DecidableEq

/-- Python truthiness test `not event.get(key)` for a string-valued key:
true when the key is missing or holds the empty string. -/
def pyFalsyStr : Option String → Bool
  | none => true
  | some s => s = ""

/-- `morning_events` (line 324): start hour in `[5, 12)`. -/
def morningEvents (dayEvents : List GEvent) : List GEvent :=
  dayEvents.filter fun e => 5 ≤ e.hour && e.hour < 12

/-- `afternoon_events` (line 325): start hour in `[12, 17)`. -/
def afternoonEvents (dayEvents : List GEvent) : List GEvent :=
  dayEvents.filter fun e => 12 ≤ e.hour && e.hour < 17

/-- `evening_events` (line 326): start hour `>= 17` — and nothing else:
hours 0-4 satisfy none of the three filters. -/
def eveningEvents (dayEvents : List GEvent) : List GEvent :=
  dayEvents.filter fun e => 17 ≤ e.hour

/-- One `time_blocks` entry (lines 328-345). -/
structure TimeBlock where
  period : String
  status : String
  description : String
  deriving DecidableEq

/-- The entry appended for one block when its event list is nonempty
(lines 328-345): period label with the day, `busy` when the block has
more than 2 events else `moderate`, and a description counting the events
and joining their titles in arrival order. -/
def blockEntry (label day : String) (evs : List GEvent) : List TimeBlock :=
  if evs.isEmpty then []
  else
    [⟨label ++ " (" ++ day ++ ")",
      if evs.length > 2 then "busy" else "moderate",
      toString evs.length ++ " events: "
        ++ String.intercalate ", " (evs.map fun e => e.summary.getD "Untitled")⟩]

/-- The per-day portion of the `time_blocks` loop (lines 322-345). -/
def timeBlocksForDay (day : String) (dayEvents : List GEvent) : List TimeBlock :=
  blockEntry "morning" day (morningEvents dayEvents)
    ++ blockEntry "afternoon" day (afternoonEvents dayEvents)
    ++ blockEntry "evening" day (eveningEvents dayEvents)

/-- The per-event importance heuristic of `_generate_fallback_analysis`
(lines 360-366), with the two `if` statements applied unconditionally in
source order:
`importance = "high"`,
`if not event.get('attendees'): importance = "medium"`,
`if not event.get('description') and not event.get('location'):
importance = "low"`. -/
def eventImportance (e : GEvent) : String :=
  let importance := "high"
  let importance := if e.attendees.isEmpty then "medium" else importance
  if pyFalsyStr e.description && pyFalsyStr e.location then "low" else importance

/-- The `key_events` importance column, in input order (lines 357-375). -/
def keyEventImportances (events : List GEvent) : List String :=
  events.map eventImportance

/-! ## Draft lifecycle state machine (calendar_agent.py, `_create_event`
lines 664-765, `_modify_draft` lines 820-864, `_confirm_draft` lines
866-892)

User-facing message strings that contain apostrophes in the source are
paraphrased here without them; nothing below depends on those texts
except the two no-active-draft messages, which are apostrophe-free in the
source and reproduced verbatim. -/

/-- The `AgentResponse` pydantic model (base.py lines 6-10). -/
structure AgentResponse where
  success : Bool
  message : String
  data : Option PyVal

/-- The draft-related mutable attributes of `CalendarAgent`
(calendar_agent.py lines 179-181), plus `storeCreateCalls`, an
instrumentation counter that a call site invoking the event-store create
operation would increment — the source contains no such call site, so no
operation below touches it. -/
structure CalAgentState where
  current_draft : Option (List (String × PyVal))
  draft_id : Nat
  modification_history : List ModRecord
  storeCreateCalls : Nat

/-- The value passed to `timedelta(minutes=...)` when computing the end
time in `_create_event` (line 717-718): `params.get("duration_minutes",
30)`; a non-numeric value raises and is caught by the outer handler. -/
def durParam : Option PyVal → Option Int
  | none => some 30
  | some (.vInt n) => some n
  | some (.vBool b) => some (if b then 1 else 0)
  | some _ => none

/-- `_create_event` (calendar_agent.py 664-765).  The `strptime` parse of
`parameters["start_time"]` and the subsequent tomorrow/near-future date
adjustment (lines 673-707) are abstracted into `parsedStart`: `none`
models the `ValueError` branch (line 709), `some st` the adjusted start
time in minutes.  On success the draft dictionary is stored (with `start`
and `end` as timestamps and `duration` as the `"N minutes"` display
string), the draft counter is bumped, and a confirmation request is
returned; no event-store call is made anywhere in this function. -/
def createEventOp (s : CalAgentState) (parsedStart : Option Int)
    (p : List (String × PyVal)) : CalAgentState × AgentResponse :=
  match parsedStart with
  | none =>
    (s, ⟨false,
      "Invalid start time format. Please specify when you would like to schedule the event.",
      none⟩)
  | some st =>
    match durParam (dictGet p "duration_minutes") with
    | none => (s, ⟨false, "Failed to create event: invalid duration value", none⟩)
    | some dur =>
      let draft : List (String × PyVal) :=
        [("summary", (dictGet p "summary").getD (.vStr "New Event")),
         ("description", (dictGet p "description").getD (.vStr "")),
         ("start", .vInt st),
         ("end", .vInt (st + dur)),
         ("duration", .vStr (toString dur ++ " minutes")),
         ("attendees", (dictGet p "attendees").getD (.vList []))]
      ({ s with draft_id := s.draft_id + 1, current_draft := some draft },
       ⟨true,
        "Here is the event I am about to create. Please confirm if this is correct, or let me know what needs to be changed:",
        some (.vDict
          [("draft_event", .vDict draft),
           ("analysis", .vDict
             [("conflicts", .vList []),
              ("suggestions", .vList [.vDict
                [("type", .vStr "duration"),
                 ("suggestion", .vStr "Consider extending to 1 hour"),
                 ("reason", .vStr "Most similar events are 1 hour long")]]),
              ("related_events", .vList []),
              ("patterns", .vList [.vDict
                [("type", .vStr "timing"),
                 ("pattern", .vStr "Usually schedule shopping in the afternoon")]]),
              ("optimizations", .vList [.vDict
                [("type", .vStr "schedule"),
                 ("suggestion", .vStr "Better time slot available at 2 PM")]])]),
           ("needs_confirmation", .vBool true),
           ("is_draft", .vBool true)])⟩)

/-- `_modify_draft` (calendar_agent.py 820-864).  With no active draft it
fails with the no-active-draft message and the state untouched.
Otherwise `parameters.get("modification", {})` is read (a non-dict value
makes `modification.get("type")` raise, caught by the handler); for a
`duration` modification the value goes through `int(...)` (failure is
caught and reported), the stored `start` is read back (modelled as the
stored timestamp; a missing or non-timestamp value raises and is caught),
and the draft's `end` and `duration` entries are updated in place.  Any
other modification type leaves the draft unchanged and still reports
success.  Every failure path returns the state unmodified. -/
def modifyDraftOp (s : CalAgentState) (p : List (String × PyVal)) :
    CalAgentState × AgentResponse :=
  match s.current_draft with
  | none =>
    (s, ⟨false, "No draft event to modify. Please create an event first.", none⟩)
  | some draft =>
    let successResp : List (String × PyVal) → AgentResponse := fun d =>
      ⟨true, "Here is the updated event. Please confirm if this is correct:",
       some (.vDict
         [("draft_event", .vDict d),
          ("needs_confirmation", .vBool true),
          ("is_draft", .vBool true)])⟩
    match (dictGet p "modification").getD (.vDict []) with
    | .vDict m =>
      match (dictGet m "type").getD .vNone with
      | .vStr t =>
        if t = "duration" then
          match pyInt ((dictGet m "value").getD .vNone) with
          | none => (s, ⟨false, "Failed to modify draft: invalid duration value", none⟩)
          | some n =>
            match dictGet draft "start" with
            | some (.vInt st) =>
              let draft' := dictSet (dictSet draft "end" (.vInt (st + n)))
                "duration" (.vStr (toString n ++ " minutes"))
              ({ s with current_draft := some draft' }, successResp draft')
            | _ => (s, ⟨false, "Failed to modify draft: invalid draft start time", none⟩)
        else (s, successResp draft)
      | _ => (s, successResp draft)
    | _ => (s, ⟨false, "Failed to modify draft: invalid modification parameter", none⟩)

/-- `_confirm_draft` (calendar_agent.py 866-892).  With no active draft it
fails with the no-active-draft message.  Otherwise the draft is copied
into the success response and the slot is cleared — the body only
simulates the event creation ("For now, we'll just simulate success"):
no event-store create operation is invoked, so `storeCreateCalls` is
untouched. -/
def confirmDraftOp (s : CalAgentState) : CalAgentState × AgentResponse :=
  match s.current_draft with
  | none =>
    (s, ⟨false, "No draft event to confirm. Please create an event first.", none⟩)
  | some draft =>
    ({ s with current_draft := none },
     ⟨true, "Event created successfully!", some (.vDict [("event", .vDict draft)])⟩)

/-! ## The `process` entry points (calendar_agent.py 774-818,
email_agent.py 469-521)

Both agents dispatch inside `try: ... except Exception`, so a handler
that raises becomes a failure response.  The handlers themselves are
asynchronous methods doing I/O; they are modelled as an opaque
environment of functions from the `parameters` dictionary to either a
response (`Except.ok`) or a raised exception (`Except.error`). -/

/-- A raised Python exception, carrying `str(e)`. -/
structure PyErr where
  msg : String

/-- Rendering of a value into an f-string, as in
`f"Unknown action: {action}"`.  Scalar values follow Python `str`;
the rendering of nested containers is abbreviated (no claim depends on
it). -/
def pyToString : PyVal → String
  | .vNone => "None"
  | .vBool true => "True"
  | .vBool false => "False"
  | .vInt n => toString n
  | .vStr s => s
  | .vList _ => "<list>"
  | .vDict _ => "<dict>"

/-- Python truthiness of a value, as tested by
`if not params.get("reviewed", False)`. -/
def pyTruthy : PyVal → Bool
  | .vNone => false
  | .vBool b => b
  | .vInt n => n != 0
  | .vStr s => s ≠ ""
  | .vList xs => !xs.isEmpty
  | .vDict es => !es.isEmpty

/-- `d.get(k, default)` on an arbitrary value known to be a dictionary
(the non-dict arm is unreachable after validation). -/
def pyGetD (v : PyVal) (k : String) (d : PyVal) : PyVal :=
  match v with
  | .vDict es => (dictGet es k).getD d
  | _ => d

/-- `validate_input` (calendar_agent.py 812-818 and the identical
email_agent.py 421-427): the input is a dict, has an `action` key, and
`input_data.get("parameters", {})` is a dict. -/
def validateInput : PyVal → Bool
  | .vDict es =>
    (dictGet es "action").isSome &&
      (match (dictGet es "parameters").getD (.vDict []) with
       | .vDict _ => true
       | _ => false)
  | _ => false

/-- Convert the outcome of the dispatched `try` body into the returned
response: `except Exception as e` yields a failure response carrying the
given message prefix and `str(e)`, with `data=None`. -/
def runCaught (prefix_ : String) : Except PyErr AgentResponse → AgentResponse
  | .ok r => r
  | .error e => ⟨false, prefix_ ++ e.msg, none⟩

/-- The four action handlers of `CalendarAgent.process`, as opaque
effectful collaborators. -/
structure CalHandlers where
  listEvents : PyVal → Except PyErr AgentResponse
  createEventH : PyVal → Except PyErr AgentResponse
  modifyDraftH : PyVal → Except PyErr AgentResponse
  confirmDraftH : Except PyErr AgentResponse

/-- The action handlers of `EmailAgent.process`. -/
structure EmailHandlers where
  analyzeEmails : PyVal → Except PyErr AgentResponse
  draftEmail : PyVal → Except PyErr AgentResponse
  sendLatestDraft : Except PyErr AgentResponse
  sendEmail : PyVal → Except PyErr AgentResponse

/-- The action names `CalendarAgent.process` dispatches on. -/
def isCalActionStr (a : String) : Bool :=
  a = "list_events" || a = "create_event" || a = "modify_draft" || a = "confirm_draft"

/-- The action names `EmailAgent.process` dispatches on. -/
def isEmailActionStr (a : String) : Bool :=
  a = "summarize_inbox" || a = "draft_email" || a = "confirm_send" || a = "send_email"

/-- The `try` body of `CalendarAgent.process` (lines 786-802): dispatch on
the action value, or return the unknown-action failure. -/
def calDispatch (ch : CalHandlers) (action params : PyVal) :
    Except PyErr AgentResponse :=
  match action with
  | .vStr a =>
    if a = "list_events" then ch.listEvents params
    else if a = "create_event" then ch.createEventH params
    else if a = "modify_draft" then ch.modifyDraftH params
    else if a = "confirm_draft" then ch.confirmDraftH
    else .ok ⟨false, "Unknown action: " ++ a, none⟩
  | a => .ok ⟨false, "Unknown action: " ++ pyToString a, none⟩

/-- The `try` body of `EmailAgent.process` (lines 481-513), including the
must-be-reviewed guard in front of `send_email`. -/
def emailDispatch (eh : EmailHandlers) (action params : PyVal) :
    Except PyErr AgentResponse :=
  match action with
  | .vStr a =>
    if a = "summarize_inbox" then eh.analyzeEmails params
    else if a = "draft_email" then eh.draftEmail params
    else if a = "confirm_send" then eh.sendLatestDraft
    else if a = "send_email" then
      if !pyTruthy (pyGetD params "reviewed" (.vBool false)) then
        .ok ⟨false, "Email must be reviewed before sending", none⟩
      else eh.sendEmail params
    else .ok ⟨false, "Unknown action: " ++ a, none⟩
  | a => .ok ⟨false, "Unknown action: " ++ pyToString a, none⟩

/-- `CalendarAgent.process` (lines 774-810): reject invalid input, then
run the dispatch under the catch-all exception handler.  The function is
total: every input produces an `AgentResponse`. -/
def calendarProcess (ch : CalHandlers) (input : PyVal) : AgentResponse :=
  if validateInput input then
    runCaught "Error processing calendar request: "
      (calDispatch ch (pyGetD input "action" .vNone)
        (pyGetD input "parameters" (.vDict [])))
  else ⟨false, "Invalid input data format", none⟩

/-- `EmailAgent.process` (lines 469-521). -/
def emailProcess (eh : EmailHandlers) (input : PyVal) : AgentResponse :=
  if validateInput input then
    runCaught "Error processing email request: "
      (emailDispatch eh (pyGetD input "action" .vNone)
        (pyGetD input "parameters" (.vDict [])))
  else ⟨false, "Invalid input data format", none⟩

/-! ## Concrete data used by the claim theorems and witnesses -/

/-- A fresh agent state: no draft, empty history, no store calls made. -/
def emptyCalState : CalAgentState := ⟨none, 0, [], 0⟩

/-- A create-event request followed by a confirm, from the fresh state:
the start-time parse succeeded (10:00 on day 0 of the model clock). -/
def c3AfterCreate : CalAgentState × AgentResponse :=
  createEventOp emptyCalState (some 600)
    [("summary", .vStr "Team sync"), ("duration_minutes", .vInt 30)]

/-- The confirm step applied to the state left by the create step. -/
def c3AfterConfirm : CalAgentState × AgentResponse :=
  confirmDraftOp c3AfterCreate.1

/-- An event starting at 03:00: it satisfies none of the three time-block
filters of `_generate_fallback_analysis`. -/
def earlyMorningEvent : GEvent := ⟨3, some "Red-eye sync", none, none, []⟩

/-- First event of the three-event scenario: 09:00, no attendees, no
description, no location. -/
def scenarioEvent1 : GEvent := ⟨9, some "Focus block", none, none, []⟩

/-- Second event of the scenario: 09:30 (hour 9), same missing fields. -/
def scenarioEvent2 : GEvent := ⟨9, some "Gym", none, none, []⟩

/-- Third event of the scenario: 10:00, has an attendee but neither
description nor location. -/
def scenarioEvent3 : GEvent := ⟨10, some "Team standup", none, none, ["alice@example.com"]⟩

/-- Handlers that all raise, for exercising the catch-all conversion. -/
def raisingCalHandlers : CalHandlers :=
  ⟨fun _ => .error ⟨"boom"⟩, fun _ => .error ⟨"boom"⟩,
   fun _ => .error ⟨"boom"⟩, .error ⟨"boom"⟩⟩

/-- Email handlers that all raise. -/
def raisingEmailHandlers : EmailHandlers :=
  ⟨fun _ => .error ⟨"boom"⟩, fun _ => .error ⟨"boom"⟩,
   .error ⟨"boom"⟩, fun _ => .error ⟨"boom"⟩⟩

/-! ## Claim theorems -/

/-- Looking up the key just written by `dictSet` yields the new value. -/
theorem dictGet_dictSet_self (l : List (String × PyVal)) (k : String) (v : PyVal) :
    dictGet (dictSet l k v) k = some v := by
  induction l with
  | nil => simp [dictGet, dictSet]
  | cons hd tl ih =>
    obtain ⟨k', v'⟩ := hd
    by_cases h : k' = k
    · simp [dictGet, dictSet, h]
    · simp [dictGet, dictSet, h, ih]

/-- Writing one key leaves the lookup of any other key unchanged. -/
theorem dictGet_dictSet_ne (l : List (String × PyVal)) (k k' : String) (v : PyVal)
    (h : k ≠ k') : dictGet (dictSet l k v) k' = dictGet l k' := by
  induction l with
  | nil => simp [dictGet, dictSet, h]
  | cons hd tl ih =>
    obtain ⟨k0, v0⟩ := hd
    by_cases h0 : k0 = k
    · subst h0
      simp [dictGet, dictSet, h]
    · simp [dictGet, dictSet, h0, ih]

/-- C7: for every single batch summary `s`, `_merge_analyses([s], n)`
returns `s` itself, unchanged, as the final summary, without dispatching
any merge request to the text-generation capability — for every summary
type. -/
theorem merge_single_batch_identity {α : Type} (s : α) (n : Nat) :
    mergeAnalyses [s] n = .direct s := rfl

/-- C5: for every reference day `r` and target weekday `t < 7`, the
weekday resolution of `_parse_time` lands strictly after `r`, on weekday
`t`, at most 7 days ahead — exactly 7 ahead precisely when `t` is the
weekday of `r`, and at most 6 ahead otherwise. -/
theorem weekday_resolution_next_occurrence (r t : Nat) (ht : t < 7) :
    r < resolveWeekdayDate r t
    ∧ resolveWeekdayDate r t % 7 = t
    ∧ resolveWeekdayDate r t ≤ r + 7
    ∧ (resolveWeekdayDate r t = r + 7 ↔ t = r % 7)
    ∧ (t ≠ r % 7 → resolveWeekdayDate r t ≤ r + 6) := by
  unfold resolveWeekdayDate daysAhead
  dsimp only
  split <;> omega

theorem weekday_resolution_next_occurrence_witness :
    (3 : Nat) < 7 ∧ resolveWeekdayDate 10 3 % 7 = 3 :=
  ⟨by decide, (weekday_resolution_next_occurrence 10 3 (by decide)).2.1⟩

/-- C3 (failing-input evaluation): from the fresh `EMPTY` state, a
successful create followed by a confirm reports success and returns the
machine to `EMPTY` (the draft slot is cleared), but the event-store
create operation is invoked zero times, not exactly once: the
instrumentation counter of the embedding is still 0 after the confirm,
because `_confirm_draft` only simulates the creation. -/
theorem confirm_clears_draft_without_store_call :
    c3AfterCreate.2.success = true
    ∧ c3AfterCreate.1.current_draft.isSome = true
    ∧ c3AfterConfirm.2.success = true
    ∧ c3AfterConfirm.1.current_draft = none
    ∧ c3AfterConfirm.1.storeCreateCalls = 0 :=
  ⟨rfl, rfl, rfl, rfl, rfl⟩

/-- C8 (counterexample): an event starting at 03:00 is, per the claim,
supposed to land in the evening block; in the code it satisfies none of
the three filters (`evening` is `hour >= 17` only) and the day produces
no time-block entry at all. -/
theorem early_event_in_no_time_block :
    morningEvents [earlyMorningEvent] = []
    ∧ afternoonEvents [earlyMorningEvent] = []
    ∧ eveningEvents [earlyMorningEvent] = []
    ∧ timeBlocksForDay "2025-01-10" [earlyMorningEvent] = [] :=
  ⟨rfl, rfl, rfl, rfl⟩

/-- C8 (amended): every event with start hour in `[5,12)` is placed in
the morning block only, `[12,17)` in the afternoon block only, `[17,24)`
in the evening block only; an event with start hour in `[0,5)` is placed
in no block at all; and a block with zero events produces no entry (the
entry list has exactly one entry per nonempty block). -/
theorem time_block_placement (evs : List GEvent) (day : String) (e : GEvent)
    (he : e ∈ evs) (h24 : e.hour < 24) :
    (5 ≤ e.hour ∧ e.hour < 12 →
      e ∈ morningEvents evs ∧ e ∉ afternoonEvents evs ∧ e ∉ eveningEvents evs)
    ∧ (12 ≤ e.hour ∧ e.hour < 17 →
      e ∉ morningEvents evs ∧ e ∈ afternoonEvents evs ∧ e ∉ eveningEvents evs)
    ∧ (17 ≤ e.hour →
      e ∉ morningEvents evs ∧ e ∉ afternoonEvents evs ∧ e ∈ eveningEvents evs)
    ∧ (e.hour < 5 →
      e ∉ morningEvents evs ∧ e ∉ afternoonEvents evs ∧ e ∉ eveningEvents evs)
    ∧ (timeBlocksForDay day evs).length
        = (if (morningEvents evs).isEmpty then 0 else 1)
          + (if (afternoonEvents evs).isEmpty then 0 else 1)
          + (if (eveningEvents evs).isEmpty then 0 else 1) := by
  refine ⟨?_, ?_, ?_, ?_, ?_⟩
  · intro h
    refine ⟨?_, ?_, ?_⟩ <;>
      simp [morningEvents, afternoonEvents, eveningEvents, List.mem_filter, he] <;>
      omega
  · intro h
    refine ⟨?_, ?_, ?_⟩ <;>
      simp [morningEvents, afternoonEvents, eveningEvents, List.mem_filter, he] <;>
      omega
  · intro h
    refine ⟨?_, ?_, ?_⟩ <;>
      simp [morningEvents, afternoonEvents, eveningEvents, List.mem_filter, he] <;>
      omega
  · intro h
    refine ⟨?_, ?_, ?_⟩ <;>
      simp [morningEvents, afternoonEvents, eveningEvents, List.mem_filter, he] <;>
      omega
  · simp only [timeBlocksForDay, blockEntry, List.length_append]
    split_ifs <;> simp

theorem time_block_placement_witness :
    scenarioEvent3 ∈ [scenarioEvent1, scenarioEvent3]
    ∧ scenarioEvent3.hour < 24
    ∧ (5 ≤ scenarioEvent3.hour ∧ scenarioEvent3.hour < 12)
    ∧ scenarioEvent3 ∈ morningEvents [scenarioEvent1, scenarioEvent3] :=
  ⟨by decide, by decide, by decide,
    ((time_block_placement [scenarioEvent1, scenarioEvent3] "2025-01-10" scenarioEvent3
      (by decide) (by decide)).1 (by decide)).1⟩

/-- C9 (counterexample): the third scenario event has an attendee but
neither description nor location; the code assigns it importance `low`,
not `medium` as claimed, and the three-event scenario yields
`[low, low, low]` rather than `[low, low, medium]`. -/
theorem attendee_without_details_importance_low :
    eventImportance scenarioEvent3 = "low"
    ∧ eventImportance scenarioEvent3 ≠ "medium"
    ∧ keyEventImportances [scenarioEvent1, scenarioEvent2, scenarioEvent3]
        = ["low", "low", "low"]
    ∧ keyEventImportances [scenarioEvent1, scenarioEvent2, scenarioEvent3]
        ≠ ["low", "low", "medium"] := by
  refine ⟨rfl, by decide, rfl, by decide⟩

/-- C9 (amended): the importance heuristic applies both checks
unconditionally in order — `high` by default, `medium` when there are no
attendees, and `low` whenever description and location are both absent,
overriding the attendee check.  In particular an event with at least one
attendee but neither description nor location receives `low`, and the
three-event scenario yields `[low, low, low]` in input order. -/
theorem importance_heuristic_rule (e : GEvent) :
    ((pyFalsyStr e.description && pyFalsyStr e.location) = true →
      eventImportance e = "low")
    ∧ ((pyFalsyStr e.description && pyFalsyStr e.location) = false →
      e.attendees = [] → eventImportance e = "medium")
    ∧ ((pyFalsyStr e.description && pyFalsyStr e.location) = false →
      e.attendees ≠ [] → eventImportance e = "high")
    ∧ (e.attendees ≠ [] → pyFalsyStr e.description = true →
      pyFalsyStr e.location = true → eventImportance e = "low")
    ∧ keyEventImportances [scenarioEvent1, scenarioEvent2, scenarioEvent3]
        = ["low", "low", "low"] := by
  refine ⟨?_, ?_, ?_, ?_, rfl⟩
  · intro h
    simp [eventImportance, h]
  · intro h ha
    simp [eventImportance, h, ha]
  · intro h ha
    simp [eventImportance, h, List.isEmpty_iff, ha]
  · intro ha hd hl
    simp [eventImportance, hd, hl]

theorem importance_heuristic_rule_witness :
    scenarioEvent3.attendees ≠ []
    ∧ pyFalsyStr scenarioEvent3.description = true
    ∧ pyFalsyStr scenarioEvent3.location = true
    ∧ eventImportance scenarioEvent3 = "low" :=
  ⟨by decide, by decide, by decide,
    (importance_heuristic_rule scenarioEvent3).2.2.2.1 (by decide) (by decide) (by decide)⟩

/-- A string value starting with `+=` is relative: the remainder is
parsed with `int` and added to the current duration (shared computation
step used by the duration-rule theorems). -/
theorem handleDuration_plusEq (d k : Int) (cs : List Char)
    (h : pyIntOfChars cs = some k) :
    handleDuration (some (.vInt d)) (.vStr (String.mk ('+' :: '=' :: cs)))
      = some (d + k) := by
  simp [handleDuration, hasPlusEq, h]

/-- An unparseable remainder after the `+=` makes the modification fail
(shared computation step). -/
theorem handleDuration_plusEq_fail (d : Int) (cs : List Char)
    (h : pyIntOfChars cs = none) :
    handleDuration (some (.vInt d)) (.vStr (String.mk ('+' :: '=' :: cs))) = none := by
  simp [handleDuration, hasPlusEq, h]

/-- C1: for a draft whose stored `duration_minutes` is the positive
integer `d`, both duration-modification code paths
(`_handle_modification` and `_modify_draft_event`) obey the parsing
rule: a textual value `"+=" ++ cs` whose remainder parses as the integer
`n` is relative and yields `d + n`; a remainder that does not parse
makes the modification fail hard (the `INVALID_DURATION` `return None`),
not default silently; an integer value `k` is absolute and replaces the
duration; and a numeric string not starting with `+=` is absolute as
well. -/
theorem duration_modification_parsing_rule (d : Int) (hd : 0 < d)
    (cs : List Char) (n k : Int) (s : String) :
    (pyIntOfChars cs = some n →
      handleDuration (some (.vInt d)) (.vStr (String.mk ('+' :: '=' :: cs))) = some (d + n)
      ∧ modifyDraftEventDuration d (.vStr (String.mk ('+' :: '=' :: cs)))
          = .ok (.vInt (d + n)))
    ∧ (pyIntOfChars cs = none →
      handleDuration (some (.vInt d)) (.vStr (String.mk ('+' :: '=' :: cs))) = none
      ∧ modifyDraftEventDuration d (.vStr (String.mk ('+' :: '=' :: cs))) = .fail)
    ∧ (handleDuration (some (.vInt d)) (.vInt k) = some k
      ∧ modifyDraftEventDuration d (.vInt k) = .ok (.vInt k))
    ∧ (hasPlusEq s.data = false → pyFloatTruncChars s.data = some k →
      handleDuration (some (.vInt d)) (.vStr s) = some k) := by
  refine ⟨?_, ?_, ⟨rfl, rfl⟩, ?_⟩
  · intro h
    exact ⟨handleDuration_plusEq d n cs h, by simp [modifyDraftEventDuration, hasPlusEq, h]⟩
  · intro h
    exact ⟨handleDuration_plusEq_fail d cs h, by simp [modifyDraftEventDuration, hasPlusEq, h]⟩
  · intro h1 h2
    simp [handleDuration, h1, pyFloatInt, h2]

theorem duration_modification_parsing_rule_witness :
    (0 : Int) < 30
    ∧ pyIntOfChars ['3', '0'] = some 30
    ∧ handleDuration (some (.vInt 30)) (.vStr (String.mk ['+', '=', '3', '0']))
        = some (30 + 30) :=
  ⟨by decide, by decide,
    ((duration_modification_parsing_rule 30 (by decide) ['3', '0'] 30 0 "").1 (by decide)).1⟩

/-- One `_handle_modification` call whose explicit modifications carry
only a `duration_minutes` value: the duration is rewritten, the end time
recomputed from the stored start, and the request appended to the
history. -/
theorem handleModification_single_duration (draft : List (String × PyVal))
    (hist : List ModRecord) (req : String) (d st a : Int) (v : PyVal)
    (h1 : dictGet draft "duration_minutes" = some (.vInt d))
    (h2 : dictGet draft "start_time" = some (.vInt st))
    (hv : handleDuration (some (.vInt d)) v = some a) :
    handleModification draft hist req [("duration_minutes", v)] [] =
      (some (dictSet (dictSet draft "duration_minutes" (.vInt a))
          "end_time" (.vInt (st + a))),
       hist ++ [⟨req, [("duration_minutes", v)], []⟩]) := by
  unfold handleModification durationStep applyExplicitKeys
  simp [dictGet, h1, h2, hv]

/-- C2: for every active draft with original duration `d` (and a stored
start time), applying the relative duration modifications `+=30` and then
`+=15` through `_handle_modification`, the second to the draft and
history produced by the first, yields `duration_minutes = d + 45` — each
delta is added to the current duration at application time, in arrival
order — and not `d + 30` or `d + 15` alone. -/
theorem two_relative_modifications_compose (draft : List (String × PyVal))
    (hist : List ModRecord) (r1 r2 : String) (d st : Int)
    (h1 : dictGet draft "duration_minutes" = some (.vInt d))
    (h2 : dictGet draft "start_time" = some (.vInt st)) :
    applyTwoRelativeMods draft hist r1 r2 = some (.vInt (d + 45))
    ∧ d + 45 ≠ d + 30 ∧ d + 45 ≠ d + 15 := by
  have e30 : handleDuration (some (.vInt d)) (.vStr "+=30") = some (d + 30) := by
    have := handleDuration_plusEq d 30 ['3', '0'] (by decide)
    simpa using this
  have s1 := handleModification_single_duration draft hist r1 d st (d + 30)
    (.vStr "+=30") h1 h2 e30
  have h1' : dictGet (dictSet (dictSet draft "duration_minutes" (.vInt (d + 30)))
      "end_time" (.vInt (st + (d + 30)))) "duration_minutes" = some (.vInt (d + 30)) := by
    rw [dictGet_dictSet_ne _ _ _ _ (by decide), dictGet_dictSet_self]
  have h2' : dictGet (dictSet (dictSet draft "duration_minutes" (.vInt (d + 30)))
      "end_time" (.vInt (st + (d + 30)))) "start_time" = some (.vInt st) := by
    rw [dictGet_dictSet_ne _ _ _ _ (by decide), dictGet_dictSet_ne _ _ _ _ (by decide), h2]
  have e15 : handleDuration (some (.vInt (d + 30))) (.vStr "+=15") = some (d + 30 + 15) := by
    have := handleDuration_plusEq (d + 30) 15 ['1', '5'] (by decide)
    simpa using this
  have s2 := handleModification_single_duration _ (hist ++ [⟨r1, [("duration_minutes", .vStr "+=30")], []⟩])
    r2 (d + 30) st (d + 30 + 15) (.vStr "+=15") h1' h2' e15
  refine ⟨?_, by omega, by omega⟩
  unfold applyTwoRelativeMods
  rw [s1]
  simp only []
  rw [s2]
  simp only []
  rw [dictGet_dictSet_ne _ _ _ _ (by decide), dictGet_dictSet_self]
  have : d + 30 + 15 = d + 45 := by omega
  rw [this]

theorem two_relative_modifications_compose_witness :
    dictGet [("duration_minutes", .vInt 60), ("start_time", .vInt 0)] "duration_minutes"
        = some (.vInt 60)
    ∧ dictGet [("duration_minutes", .vInt 60), ("start_time", .vInt 0)] "start_time"
        = some (.vInt 0)
    ∧ applyTwoRelativeMods [("duration_minutes", .vInt 60), ("start_time", .vInt 0)]
        [] "extend by 30" "extend by 15" = some (.vInt (60 + 45)) :=
  ⟨rfl, rfl,
    (two_relative_modifications_compose
      [("duration_minutes", .vInt 60), ("start_time", .vInt 0)] []
      "extend by 30" "extend by 15" 60 0 rfl rfl).1⟩

/-- C4: a modify or confirm with no active draft fails with the
no-active-draft response and leaves the state untouched; moreover every
failed modify or confirm leaves the whole agent state (draft slot and
modification history) exactly as it was, and a failed
`_handle_modification` leaves the modification history unchanged (it is
appended to only on success). -/
theorem empty_state_failures_leave_state_unchanged (s : CalAgentState)
    (p : List (String × PyVal)) (draft : List (String × PyVal))
    (hist : List ModRecord) (req : String) (em im : List (String × PyVal)) :
    (s.current_draft = none →
      modifyDraftOp s p
          = (s, ⟨false, "No draft event to modify. Please create an event first.", none⟩)
      ∧ confirmDraftOp s
          = (s, ⟨false, "No draft event to confirm. Please create an event first.", none⟩))
    ∧ ((modifyDraftOp s p).2.success = false → (modifyDraftOp s p).1 = s)
    ∧ ((confirmDraftOp s).2.success = false → (confirmDraftOp s).1 = s)
    ∧ ((handleModification draft hist req em im).1 = none →
      (handleModification draft hist req em im).2 = hist) := by
  obtain ⟨cd, did, mh, sc⟩ := s
  refine ⟨?_, ?_, ?_, ?_⟩
  · intro h
    cases cd with
    | none => exact ⟨rfl, rfl⟩
    | some d0 => simp at h
  · intro hf
    cases cd with
    | none => rfl
    | some d0 =>
      unfold modifyDraftOp at hf ⊢
      dsimp only at hf ⊢
      repeat' split at hf
      all_goals simp_all
  · intro hf
    cases cd with
    | none => rfl
    | some d0 => simp [confirmDraftOp] at hf
  · intro h
    unfold handleModification at h ⊢
    cases hE : durationStep draft em with
    | none => simp [hE]
    | some d1 => simp [hE] at h

theorem empty_state_failures_leave_state_unchanged_witness :
    emptyCalState.current_draft = none
    ∧ modifyDraftOp emptyCalState []
        = (emptyCalState,
           ⟨false, "No draft event to modify. Please create an event first.", none⟩)
    ∧ confirmDraftOp emptyCalState
        = (emptyCalState,
           ⟨false, "No draft event to confirm. Please create an event first.", none⟩) :=
  ⟨rfl,
    ((empty_state_failures_leave_state_unchanged emptyCalState [] [] [] "" [] []).1 rfl).1,
    ((empty_state_failures_leave_state_unchanged emptyCalState [] [] [] "" [] []).1 rfl).2⟩

/-- Concatenating the chunks produced by the loop recovers the pending
items appended to the open chunk. -/
theorem chunkLoop_join {α : Type} (sz : α → Nat) (m : Nat) (emails : List α) :
    ∀ (cur : List α) (curLen : Nat),
      (chunkLoop sz m emails cur curLen).join = cur ++ emails := by
  induction emails with
  | nil =>
    intro cur curLen
    rcases cur with _ | ⟨a, l⟩ <;> simp [chunkLoop]
  | cons e rest ih =>
    intro cur curLen
    simp only [chunkLoop]
    split
    · simp [ih]
    · rw [ih]
      simp

/-- The loop never emits an empty chunk. -/
theorem chunkLoop_ne_nil {α : Type} (sz : α → Nat) (m : Nat) (emails : List α) :
    ∀ (cur : List α) (curLen : Nat) (b : List α),
      b ∈ chunkLoop sz m emails cur curLen → b ≠ [] := by
  induction emails with
  | nil =>
    intro cur curLen b hb
    rcases cur with _ | ⟨a, l⟩ <;> simp_all [chunkLoop]
  | cons e rest ih =>
    intro cur curLen b hb
    simp only [chunkLoop] at hb
    split at hb
    · rename_i hcond
      rcases List.mem_cons.mp hb with hb1 | hb2
      · subst hb1
        simp only [Bool.and_eq_true, Bool.not_eq_true', List.isEmpty_eq_false] at hcond
        exact hcond.2
      · exact ih _ _ _ hb2
    · exact ih _ _ _ hb

/-- Every emitted chunk is within the bound or is a single oversized
item, provided the running length matches the open chunk and the open
chunk itself satisfies that invariant. -/
theorem chunkLoop_size_bound {α : Type} (sz : α → Nat) (m : Nat) (emails : List α) :
    ∀ (cur : List α) (curLen : Nat),
      curLen = sizeSum sz cur →
      (sizeSum sz cur ≤ m ∨ cur.length = 1) →
      ∀ b ∈ chunkLoop sz m emails cur curLen,
        sizeSum sz b ≤ m ∨ (b.length = 1 ∧ m < sizeSum sz b) := by
  induction emails with
  | nil =>
    intro cur curLen hlen hinv b hb
    rcases cur with _ | ⟨a, l⟩
    · simp [chunkLoop] at hb
    · simp only [chunkLoop, List.isEmpty_cons, if_neg] at hb
      simp only [Bool.false_eq_true, if_false, List.mem_singleton] at hb
      subst hb
      by_cases hle : sizeSum sz (a :: l) ≤ m
      · exact Or.inl hle
      · rcases hinv with h | h
        · exact absurd h hle
        · exact Or.inr ⟨h, Nat.lt_of_not_le hle⟩
  | cons e rest ih =>
    intro cur curLen hlen hinv b hb
    simp only [chunkLoop] at hb
    split at hb
    · rename_i hcond
      simp only [Bool.and_eq_true, decide_eq_true_eq, Bool.not_eq_true',
        List.isEmpty_eq_false] at hcond
      rcases List.mem_cons.mp hb with hb1 | hb2
      · subst hb1
        by_cases hle : sizeSum sz b ≤ m
        · exact Or.inl hle
        · rcases hinv with h | h
          · exact absurd h hle
          · exact Or.inr ⟨h, Nat.lt_of_not_le hle⟩
      · refine ih [e] (sz e) (by simp [sizeSum]) (Or.inr rfl) b hb2
    · rename_i hcond
      simp only [Bool.and_eq_true, decide_eq_true_eq, Bool.not_eq_true',
        List.isEmpty_eq_false, not_and, Classical.not_not] at hcond
      have hlen' : curLen + sz e = sizeSum sz (cur ++ [e]) := by
        simp [sizeSum, hlen]
      by_cases hgt : m < curLen + sz e
      · have hce : cur = [] := by
          by_contra hne
          simp [Bool.and_eq_true, decide_eq_true_eq, hgt, hne] at hcond
        subst hce
        refine ih ([] ++ [e]) (curLen + sz e) hlen' ?_ b hb
        exact Or.inr rfl
      · refine ih (cur ++ [e]) (curLen + sz e) hlen' ?_ b hb
        exact Or.inl (by omega)

/-- C6: for every item list and every `max_chars >= 1`, `_chunk_emails`
produces batches whose in-order concatenation is exactly the input (no
item dropped, duplicated or reordered), the empty input yields the empty
batch list, no batch is empty, and each batch is within the size bound
unless it is a single item that alone exceeds the bound. -/
theorem chunk_preserves_order_and_bounds {α : Type} (sz : α → Nat)
    (items : List α) (m : Nat) (hm : 1 ≤ m) :
    (chunkEmails sz items m).join = items
    ∧ (items = [] → chunkEmails sz items m = [])
    ∧ (∀ b ∈ chunkEmails sz items m, b ≠ [])
    ∧ (∀ b ∈ chunkEmails sz items m,
        sizeSum sz b ≤ m ∨ (b.length = 1 ∧ m < sizeSum sz b)) := by
  refine ⟨?_, ?_, ?_, ?_⟩
  · simpa using chunkLoop_join sz m items [] 0
  · intro h
    subst h
    rfl
  · intro b hb
    exact chunkLoop_ne_nil sz m items [] 0 b hb
  · intro b hb
    exact chunkLoop_size_bound sz m items [] 0 (by simp [sizeSum])
      (Or.inl (by simp [sizeSum])) b hb

theorem chunk_preserves_order_and_bounds_witness :
    1 ≤ 7 ∧ (chunkEmails id [3, 4, 5] 7).join = [3, 4, 5] :=
  ⟨by decide, (chunk_preserves_order_and_bounds id [3, 4, 5] 7 (by decide)).1⟩

/-- C10: the `process` entry points of both agents are total functions
into `AgentResponse` — a raised exception from a dispatched handler is
caught and converted, never propagated — and every process-level failure
is reported with `success = false`, an explanatory message, and
`data = None`: invalid input and unknown actions produce the
corresponding failure responses, a handler that raises produces the
catch-all failure response carrying `str(e)`, a handler that returns a
response has it passed through unchanged, and `send_email` without a
truthy `reviewed` flag is rejected before the handler runs. -/
theorem process_never_raises_and_fails_closed (ch : CalHandlers) (eh : EmailHandlers)
    (input params : PyVal) (a : String) (e : PyErr) (r : AgentResponse) :
    (validateInput input = false →
      calendarProcess ch input = ⟨false, "Invalid input data format", none⟩
      ∧ emailProcess eh input = ⟨false, "Invalid input data format", none⟩)
    ∧ (isCalActionStr a = false →
      calDispatch ch (.vStr a) params = .ok ⟨false, "Unknown action: " ++ a, none⟩)
    ∧ (isEmailActionStr a = false →
      emailDispatch eh (.vStr a) params = .ok ⟨false, "Unknown action: " ++ a, none⟩)
    ∧ (validateInput input = true →
      calDispatch ch (pyGetD input "action" .vNone)
          (pyGetD input "parameters" (.vDict [])) = .error e →
      calendarProcess ch input
        = ⟨false, "Error processing calendar request: " ++ e.msg, none⟩)
    ∧ (validateInput input = true →
      emailDispatch eh (pyGetD input "action" .vNone)
          (pyGetD input "parameters" (.vDict [])) = .error e →
      emailProcess eh input
        = ⟨false, "Error processing email request: " ++ e.msg, none⟩)
    ∧ (validateInput input = true →
      calDispatch ch (pyGetD input "action" .vNone)
          (pyGetD input "parameters" (.vDict [])) = .ok r →
      calendarProcess ch input = r)
    ∧ (validateInput input = true →
      emailDispatch eh (pyGetD input "action" .vNone)
          (pyGetD input "parameters" (.vDict [])) = .ok r →
      emailProcess eh input = r)
    ∧ (pyTruthy (pyGetD params "reviewed" (.vBool false)) = false →
      emailDispatch eh (.vStr "send_email") params
        = .ok ⟨false, "Email must be reviewed before sending", none⟩) := by
  refine ⟨?_, ?_, ?_, ?_, ?_, ?_, ?_, ?_⟩
  · intro h
    constructor <;> simp [calendarProcess, emailProcess, h]
  · intro h
    simp only [isCalActionStr, Bool.or_eq_false_iff, decide_eq_false_iff_not] at h
    obtain ⟨⟨⟨h1, h2⟩, h3⟩, h4⟩ := h
    simp [calDispatch, h1, h2, h3, h4]
  · intro h
    simp only [isEmailActionStr, Bool.or_eq_false_iff, decide_eq_false_iff_not] at h
    obtain ⟨⟨⟨h1, h2⟩, h3⟩, h4⟩ := h
    simp [emailDispatch, h1, h2, h3, h4]
  · intro hv hd
    simp [calendarProcess, hv, hd, runCaught]
  · intro hv hd
    simp [emailProcess, hv, hd, runCaught]
  · intro hv hd
    simp [calendarProcess, hv, hd, runCaught]
  · intro hv hd
    simp [emailProcess, hv, hd, runCaught]
  · intro h
    simp [emailDispatch, h]

theorem process_never_raises_and_fails_closed_witness :
    validateInput (.vInt 3) = false
    ∧ calendarProcess raisingCalHandlers (.vInt 3)
        = ⟨false, "Invalid input data format", none⟩
    ∧ validateInput (.vDict [("action", .vStr "confirm_draft")]) = true
    ∧ calDispatch raisingCalHandlers
        (pyGetD (.vDict [("action", .vStr "confirm_draft")]) "action" .vNone)
        (pyGetD (.vDict [("action", .vStr "confirm_draft")]) "parameters" (.vDict []))
        = .error ⟨"boom"⟩
    ∧ calendarProcess raisingCalHandlers (.vDict [("action", .vStr "confirm_draft")])
        = ⟨false, "Error processing calendar request: boom", none⟩ :=
  ⟨rfl,
    ((process_never_raises_and_fails_closed raisingCalHandlers raisingEmailHandlers
      (.vInt 3) .vNone "" ⟨"boom"⟩ ⟨true, "", none⟩).1 rfl).1,
    rfl, rfl,
    (process_never_raises_and_fails_closed raisingCalHandlers raisingEmailHandlers
      (.vDict [("action", .vStr "confirm_draft")]) .vNone "" ⟨"boom"⟩
      ⟨true, "", none⟩).2.2.2.1 rfl rfl⟩
